import Mathlib

/-
Verification of the netflix-service backend gateway core: the TMDB error
taxonomy (src/error.rs), the dispatch layer (src/handlers.rs), the live
client (src/tmdb_client.rs) and the test double
(tests/integration/mock_tmdb_client.rs), shallowly embedded in Lean.

Modelling conventions:
- Rust i32 values are modelled as Int (no arithmetic overflowing i32 occurs
  in the modelled code paths), u16 HTTP status codes as Nat.
- Rust f64 is only ever carried, never computed with, in the modelled code;
  its literal values are represented as Rat.
- Rust String is Lean String; Option/Result are Option/Except.
- HashMap lookups in the mock are modelled as association-list lookups.
-/

deriving instance DecidableEq for Except

/-- Catalog item, from src/models.rs Movie. -/
structure Movie where
  id : Int
  title : Option String
  name : Option String
  overview : Option String
  poster_path : Option String
  backdrop_path : Option String
  vote_average : Option Rat
  release_date : Option String
  media_type : Option String
deriving DecidableEq, Repr

/-- Paginated result page, from src/models.rs TmdbResponse. -/
structure TmdbResponse where
  page : Int
  results : List Movie
  total_pages : Int
deriving DecidableEq, Repr

/-- Video clip, from src/models.rs Video. -/
structure Video where
  id : String
  key : String
  site : String
  type : String
  name : String
deriving DecidableEq, Repr

/-- Video page, from src/models.rs VideoResponse. -/
structure VideoResponse where
  id : Int
  results : List Video
deriving DecidableEq, Repr

/-- Search route query parameters, from src/models.rs SearchQuery.
The query field is required, page is optional. -/
structure SearchQuery where
  query : String
  page : Option Int
deriving DecidableEq, Repr

/-- Error taxonomy, from src/error.rs TmdbError. -/
inductive TmdbError where
  | NetworkError (msg : String)
  | ParseError (msg : String)
  | RateLimitExceeded
  | NotFound
  | Unauthorized
  | ServerError (code : Nat)
  | BadRequest (msg : String)
  | Unknown (code : Nat) (msg : String)
deriving DecidableEq, Repr

/-- Embedding of TmdbError::from_status (src/error.rs lines 62-71).
The Rust match tests the arms 400, 401, 404, 429, 500..=599, catch-all in
order; sequential equality and range tests embed that match faithfully. -/
def TmdbError.from_status (status : Nat) (body : String) : TmdbError :=
  if status = 400 then .BadRequest body
  else if status = 401 then .Unauthorized
  else if status = 404 then .NotFound
  else if status = 429 then .RateLimitExceeded
  else if 500 ≤ status ∧ status ≤ 599 then .ServerError status
  else .Unknown status body

/-- Embedding of TmdbError::is_retryable (src/error.rs lines 74-81):
matches! on NetworkError, RateLimitExceeded, ServerError. -/
def TmdbError.is_retryable : TmdbError → Bool
  | .NetworkError _ | .RateLimitExceeded | .ServerError _ => true
  | _ => false

/-- Variant tag of a TmdbError, forgetting the payload. -/
inductive ErrorKindTag where
  | network
  | parse
  | rateLimited
  | notFound
  | unauthorized
  | serverError
  | badRequest
  | unknown
deriving DecidableEq, Repr

/-- Projection of a TmdbError value to its variant tag. -/
def TmdbError.tag : TmdbError → ErrorKindTag
  | .NetworkError _ => .network
  | .ParseError _ => .parse
  | .RateLimitExceeded => .rateLimited
  | .NotFound => .notFound
  | .Unauthorized => .unauthorized
  | .ServerError _ => .serverError
  | .BadRequest _ => .badRequest
  | .Unknown _ _ => .unknown

/-- Spec definition, written from the words of spec section 4.1: the
classify_status table (400 BadRequest(body); 401 Unauthorized; 404 NotFound;
429 RateLimited; 500-599 ServerError(code); any other code
Unknown(code, body)), to be compared with the code's
TmdbError.from_status. -/
def classify_status_spec (status : Nat) (body : String) : TmdbError :=
  if status = 400 then .BadRequest body
  else if status = 401 then .Unauthorized
  else if status = 404 then .NotFound
  else if status = 429 then .RateLimitExceeded
  else if 500 ≤ status ∧ status ≤ 599 then .ServerError status
  else .Unknown status body

/-- Embedding of map_error_to_response (src/handlers.rs lines 45-56):
maps a TmdbError to an HTTP status code and a fixed static body text. -/
def map_error_to_response : TmdbError → Nat × String
  | .NotFound => (404, "Resource not found")
  | .Unauthorized => (401, "Invalid or missing API key")
  | .RateLimitExceeded => (429, "Rate limit exceeded")
  | .BadRequest _ => (400, "Bad request")
  | .ServerError _ => (502, "Upstream server error")
  | .NetworkError _ => (503, "Network error occurred")
  | .ParseError _ => (500, "Failed to parse response")
  | .Unknown _ _ => (500, "Unknown error occurred")

/-- Spec definition, written from the table of spec section 4.4: the
authoritative ErrorKind-to-(status, body) dispatch table, keyed only by the
variant tag, to be compared with the code's map_error_to_response. -/
def dispatch_table_spec : ErrorKindTag → Nat × String
  | .notFound => (404, "Resource not found")
  | .unauthorized => (401, "Invalid or missing API key")
  | .rateLimited => (429, "Rate limit exceeded")
  | .badRequest => (400, "Bad request")
  | .serverError => (502, "Upstream server error")
  | .network => (503, "Network error occurred")
  | .parse => (500, "Failed to parse response")
  | .unknown => (500, "Unknown error occurred")

/-- Rendered message of a reqwest::Error (its to_string output). Both the
send step and the body-decode step of reqwest surface failures as values of
this one error type. -/
structure ReqwestError where
  msg : String
deriving DecidableEq, Repr

/-- Rendering of a reqwest send error's to_string: the kind text, then the
full request URL, then the lower-level cause. reqwest redacts only the
userinfo component of the URL, not query parameters, and the code never
calls Error::without_url, so the URL — api_key parameter included — stays
in the message text. -/
def reqwestSendErrorMsg (url : String) (cause : String) : String :=
  "error sending request for url (" ++ url ++ "): " ++ cause

/-- Rendering of a reqwest decode error's to_string (from Response::json):
the kind text, then the request URL attached from the response, then the
serde cause. -/
def reqwestDecodeErrorMsg (url : String) (cause : String) : String :=
  "error decoding response body for url (" ++ url ++ "): " ++ cause

/-- Embedding of the From reqwest::Error impl (src/error.rs lines 48-52):
every reqwest error converts to NetworkError carrying its message. -/
def tmdbErrorFromReqwest (e : ReqwestError) : TmdbError :=
  .NetworkError e.msg

/-- Embedding of the From serde_json::Error impl (src/error.rs lines 54-58):
a serde_json error converts to ParseError carrying its message. -/
def tmdbErrorFromSerdeJson (msg : String) : TmdbError :=
  .ParseError msg

/-- Outcome of client.get(url).send().await: either a transport failure
carrying its URL-independent lower-level cause (connection refused,
timeout, ...) — the reqwest::Error the caller sees renders this cause after
the request URL, per reqwestSendErrorMsg — or a response with a status code
and a body text (the body seen both by response.text() and by
response.json()). -/
inductive SendResult where
  | failure (cause : String)
  | response (status : Nat) (body : String)
deriving DecidableEq, Repr

/-- Embedding of StatusCode::is_success: 200..=299. -/
def statusIsSuccess (s : Nat) : Bool :=
  200 ≤ s && s ≤ 299

/-- Embedding of reqwest::Response::json over a serde decoder: on decode
failure, reqwest wraps the serde message in a reqwest::Error (kind Decode)
carrying the request URL — the caller receives a reqwest::Error whose
rendered message attaches that URL, not a serde_json::Error. -/
def reqwestJson {α : Type} (decode : String → Except String α)
    (url : String) (body : String) : Except ReqwestError α :=
  match decode body with
  | .ok v => .ok v
  | .error m => .error ⟨reqwestDecodeErrorMsg url m⟩

/-- URL built by RealTmdbClient::get_trending (src/tmdb_client.rs
lines 62-65): format! interpolation of api_key and page. -/
def trending_url (api_key : String) (page : Int) : String :=
  "https://api.themoviedb.org/3/trending/all/week?api_key=" ++ api_key ++
    "&page=" ++ toString page

/-- URL built by RealTmdbClient::search_content (src/tmdb_client.rs
lines 80-83): format! interpolation of api_key, query and page, with the
query text inserted verbatim. -/
def search_url (api_key : String) (query : String) (page : Int) : String :=
  "https://api.themoviedb.org/3/search/multi?api_key=" ++ api_key ++
    "&query=" ++ query ++ "&page=" ++ toString page ++ "&include_adult=false"

/-- URL built by RealTmdbClient::get_movie_videos (src/tmdb_client.rs
lines 98-101): format! interpolation of movie_id and api_key. -/
def videos_url (movie_id : Int) (api_key : String) : String :=
  "https://api.themoviedb.org/3/movie/" ++ toString movie_id ++
    "/videos?api_key=" ++ api_key

/-- Embedding of RealTmdbClient::get_trending (src/tmdb_client.rs
lines 61-77). The transport oracle gives the outcome of send() for a URL;
decode is the serde_json deserialization of TmdbResponse. Each question-mark
propagation of a reqwest::Error applies tmdbErrorFromReqwest. -/
def RealTmdbClient.get_trending (api_key : String) (page : Int)
    (transport : String → SendResult)
    (decode : String → Except String TmdbResponse) :
    Except TmdbError TmdbResponse :=
  let url := trending_url api_key page
  match transport url with
  | .failure cause =>
    .error (tmdbErrorFromReqwest ⟨reqwestSendErrorMsg url cause⟩)
  | .response status body =>
    if ¬ statusIsSuccess status then
      .error (TmdbError.from_status status body)
    else
      match reqwestJson decode url body with
      | .error e => .error (tmdbErrorFromReqwest e)
      | .ok data => .ok data

/-- Embedding of RealTmdbClient::search_content (src/tmdb_client.rs
lines 79-95), structured exactly as get_trending but for its URL. -/
def RealTmdbClient.search_content (api_key : String) (query : String)
    (page : Int) (transport : String → SendResult)
    (decode : String → Except String TmdbResponse) :
    Except TmdbError TmdbResponse :=
  let url := search_url api_key query page
  match transport url with
  | .failure cause =>
    .error (tmdbErrorFromReqwest ⟨reqwestSendErrorMsg url cause⟩)
  | .response status body =>
    if ¬ statusIsSuccess status then
      .error (TmdbError.from_status status body)
    else
      match reqwestJson decode url body with
      | .error e => .error (tmdbErrorFromReqwest e)
      | .ok data => .ok data

/-- Embedding of RealTmdbClient::get_movie_videos (src/tmdb_client.rs
lines 97-113), decoding a VideoResponse. -/
def RealTmdbClient.get_movie_videos (api_key : String) (movie_id : Int)
    (transport : String → SendResult)
    (decode : String → Except String VideoResponse) :
    Except TmdbError VideoResponse :=
  let url := videos_url movie_id api_key
  match transport url with
  | .failure cause =>
    .error (tmdbErrorFromReqwest ⟨reqwestSendErrorMsg url cause⟩)
  | .response status body =>
    if ¬ statusIsSuccess status then
      .error (TmdbError.from_status status body)
    else
      match reqwestJson decode url body with
      | .error e => .error (tmdbErrorFromReqwest e)
      | .ok data => .ok data

/-- C1: TmdbError::from_status realises exactly the spec's classification
table for every status code and body text — 400 BadRequest(body), 401
Unauthorized, 404 NotFound, 429 RateLimitExceeded, 500-599 ServerError(code),
and every remaining code Unknown(code, body). Totality and determinism hold
because the embedding is a total Lean function of its two arguments. -/
theorem from_status_matches_spec_table : ∀ (c : Nat) (b : String),
    TmdbError.from_status c b = classify_status_spec c b ∧
    (c ∉ ([400, 401, 404, 429] : List Nat) → ¬(500 ≤ c ∧ c ≤ 599) →
      TmdbError.from_status c b = .Unknown c b) := by
  intro c b
  refine ⟨rfl, ?_⟩
  intro hmem hrange
  have h400 : ¬(c = 400) := fun h => hmem (by simp [h])
  have h401 : ¬(c = 401) := fun h => hmem (by simp [h])
  have h404 : ¬(c = 404) := fun h => hmem (by simp [h])
  have h429 : ¬(c = 429) := fun h => hmem (by simp [h])
  simp [TmdbError.from_status, h400, h401, h404, h429, hrange]

/-- Witness for C1 at concrete inputs: 418 is outside the enumerated codes
and the 5xx range, and from_status classifies it as Unknown. -/
theorem from_status_matches_spec_table_witness :
    (418 ∉ ([400, 401, 404, 429] : List Nat)) ∧ ¬(500 ≤ 418 ∧ 418 ≤ 599) ∧
    TmdbError.from_status 418 "teapot" = .Unknown 418 "teapot" :=
  ⟨by decide, by decide,
    (from_status_matches_spec_table 418 "teapot").2 (by decide) (by decide)⟩

/-- C2: map_error_to_response realises exactly the spec's dispatch table,
depending only on the variant tag of the error; in particular any two
errors with the same tag (the same variant, any payloads) map to equal
(status, body) pairs. -/
theorem map_error_to_response_matches_spec_table : ∀ (e : TmdbError),
    map_error_to_response e = dispatch_table_spec e.tag ∧
    ∀ (e₂ : TmdbError), e.tag = e₂.tag →
      map_error_to_response e = map_error_to_response e₂ := by
  intro e
  constructor
  · cases e <;> rfl
  · intro e₂ h
    cases e <;> cases e₂ <;> simp_all [TmdbError.tag, map_error_to_response]

/-- Witness for C2 at concrete inputs: two BadRequest errors with distinct
payloads share a tag and map to the same response pair. -/
theorem map_error_to_response_matches_spec_table_witness :
    map_error_to_response (.BadRequest "alpha") = dispatch_table_spec .badRequest ∧
    (TmdbError.BadRequest "alpha").tag = (TmdbError.BadRequest "beta").tag ∧
    map_error_to_response (.BadRequest "alpha") =
      map_error_to_response (.BadRequest "beta") :=
  ⟨(map_error_to_response_matches_spec_table (.BadRequest "alpha")).1, rfl,
    (map_error_to_response_matches_spec_table (.BadRequest "alpha")).2
      (.BadRequest "beta") rfl⟩

/-- C3: is_retryable partitions the eight variants exactly into
retryable = NetworkError, RateLimitExceeded, ServerError and
not retryable = NotFound, Unauthorized, BadRequest, ParseError, Unknown,
for every payload carried inside each variant. -/
theorem is_retryable_partition :
    (∀ s, (TmdbError.NetworkError s).is_retryable = true) ∧
    (TmdbError.RateLimitExceeded.is_retryable = true) ∧
    (∀ c, (TmdbError.ServerError c).is_retryable = true) ∧
    (TmdbError.NotFound.is_retryable = false) ∧
    (TmdbError.Unauthorized.is_retryable = false) ∧
    (∀ s, (TmdbError.BadRequest s).is_retryable = false) ∧
    (∀ s, (TmdbError.ParseError s).is_retryable = false) ∧
    (∀ c s, (TmdbError.Unknown c s).is_retryable = false) :=
  ⟨fun _ => rfl, rfl, fun _ => rfl, rfl, rfl, fun _ => rfl, fun _ => rfl,
    fun _ _ => rfl⟩

/-- C4 (divergence evidence): when the upstream responds 200 with a body
that fails to decode, get_trending returns NetworkError — the question-mark
on response.json() converts the reqwest decode error through the
From reqwest::Error impl — and never ParseError; the separate
From serde_json::Error impl, which would give ParseError, is not on this
code path. -/
theorem trending_decode_failure_is_network_error :
    RealTmdbClient.get_trending "key" 1
      (fun _ => .response 200 "not json")
      (fun _ => .error "expected struct TmdbResponse")
      = .error (.NetworkError
        "error decoding response body for url (https://api.themoviedb.org/3/trending/all/week?api_key=key&page=1): expected struct TmdbResponse") ∧
    (∀ m, RealTmdbClient.get_trending "key" 1
      (fun _ => .response 200 "not json")
      (fun _ => .error "expected struct TmdbResponse")
      ≠ .error (.ParseError m)) ∧
    tmdbErrorFromSerdeJson "expected struct TmdbResponse"
      = .ParseError "expected struct TmdbResponse" := by
  refine ⟨by decide, ?_, rfl⟩
  intro m h
  simp [RealTmdbClient.get_trending, reqwestJson, tmdbErrorFromReqwest,
    statusIsSuccess] at h

/-- C5 (divergence evidence): search_content interpolates the user query
verbatim into the URL; a query holding URL-unsafe characters lands in the
URL unencoded, and the URL differs from its percent-encoded form. -/
theorem search_url_no_percent_encoding :
    search_url "key" "tom&jerry" 2 =
      "https://api.themoviedb.org/3/search/multi?api_key=key&query=tom&jerry&page=2&include_adult=false" ∧
    search_url "key" "tom&jerry" 2 ≠
      "https://api.themoviedb.org/3/search/multi?api_key=key&query=tom%26jerry&page=2&include_adult=false" :=
  ⟨rfl, by decide⟩

/-- C6 (divergence evidence): a transport failure on get_trending yields a
NetworkError whose message text carries the full request URL, the api_key
parameter included — reqwest renders the URL into the error and the code
never strips it — so the credential appears verbatim in the returned
message, and two runs differing only in the api_key, with the same
transport cause, yield different error values. -/
theorem network_error_message_contains_api_key :
    RealTmdbClient.get_trending "secret-key" 1
      (fun _ => .failure "connection refused") (fun _ => .error "bad")
      = .error (.NetworkError
        "error sending request for url (https://api.themoviedb.org/3/trending/all/week?api_key=secret-key&page=1): connection refused") ∧
    (∃ pre post,
      "error sending request for url (https://api.themoviedb.org/3/trending/all/week?api_key=secret-key&page=1): connection refused"
        = pre ++ "secret-key" ++ post) ∧
    RealTmdbClient.get_trending "secret-key" 1
      (fun _ => .failure "connection refused") (fun _ => .error "bad")
      ≠ RealTmdbClient.get_trending "other-key" 1
      (fun _ => .failure "connection refused") (fun _ => .error "bad") :=
  ⟨by decide,
    ⟨"error sending request for url (https://api.themoviedb.org/3/trending/all/week?api_key=",
      "&page=1): connection refused", by decide⟩,
    by decide⟩

/-- Test double for the client contract, from
tests/integration/mock_tmdb_client.rs MockTmdbClient. The HashMaps of
configured responses are modelled as association lists. -/
structure MockTmdbClient where
  trending_responses : List (Int × Except TmdbError TmdbResponse)
  search_responses : List ((String × Int) × Except TmdbError TmdbResponse)
  video_responses : List (Int × Except TmdbError VideoResponse)
  default_trending : Option (Except TmdbError TmdbResponse)
  default_search : Option (Except TmdbError TmdbResponse)
  default_video : Option (Except TmdbError VideoResponse)

/-- Embedding of MockTmdbClient::new: all maps empty, no defaults. -/
def MockTmdbClient.new : MockTmdbClient :=
  ⟨[], [], [], none, none, none⟩

/-- Embedding of MockTmdbClient::default_trending_response (the self
argument is unused in the source and dropped here). -/
def MockTmdbClient.default_trending_response (page : Int) :
    Except TmdbError TmdbResponse :=
  .ok { page := page, total_pages := 10, results := [
    { id := 123, title := some "Test Movie 1", name := none,
      overview := some "A great test movie",
      poster_path := some "/test1.jpg",
      backdrop_path := some "/backdrop1.jpg",
      vote_average := some (8.5 : Rat),
      release_date := some "2024-01-01", media_type := some "movie" },
    { id := 456, title := none, name := some "Test Show 1",
      overview := some "A great test show",
      poster_path := some "/test2.jpg",
      backdrop_path := some "/backdrop2.jpg",
      vote_average := some (7.8 : Rat),
      release_date := some "2024-02-01", media_type := some "tv" }] }

/-- Embedding of MockTmdbClient::default_search_response. The source
formats the title as the query wrapped in single quotes after the fixed
prefix; the quote characters are dropped here, which no claim observes. -/
def MockTmdbClient.default_search_response (query : String) (page : Int) :
    Except TmdbError TmdbResponse :=
  .ok { page := page, total_pages := 5, results := [
    { id := 789,
      title := some ("Search Result for " ++ query),
      name := none, overview := some "Matching content",
      poster_path := some "/search.jpg",
      backdrop_path := some "/search_backdrop.jpg",
      vote_average := some (9.0 : Rat),
      release_date := some "2023-12-01", media_type := some "movie" }] }

/-- Embedding of MockTmdbClient::default_video_response. -/
def MockTmdbClient.default_video_response (movie_id : Int) :
    Except TmdbError VideoResponse :=
  .ok { id := movie_id, results := [
    { id := "video123", key := "abc123xyz", site := "YouTube",
      type := "Trailer", name := "Official Trailer" },
    { id := "video456", key := "def456uvw", site := "YouTube",
      type := "Teaser", name := "Teaser" }] }

/-- Embedding of MockTmdbClient::get_trending
(tests/integration/mock_tmdb_client.rs lines 126-139): specific configured
response first, then the configured default, then the built-in default. -/
def MockTmdbClient.get_trending (m : MockTmdbClient) (page : Int) :
    Except TmdbError TmdbResponse :=
  match m.trending_responses.lookup page with
  | some r => r
  | none =>
    match m.default_trending with
    | some r => r
    | none => MockTmdbClient.default_trending_response page

/-- Embedding of MockTmdbClient::search_content, keyed by (query, page). -/
def MockTmdbClient.search_content (m : MockTmdbClient) (query : String)
    (page : Int) : Except TmdbError TmdbResponse :=
  match m.search_responses.lookup (query, page) with
  | some r => r
  | none =>
    match m.default_search with
    | some r => r
    | none => MockTmdbClient.default_search_response query page

/-- Embedding of MockTmdbClient::get_movie_videos, keyed by movie id. -/
def MockTmdbClient.get_movie_videos (m : MockTmdbClient) (movie_id : Int) :
    Except TmdbError VideoResponse :=
  match m.video_responses.lookup movie_id with
  | some r => r
  | none =>
    match m.default_video with
    | some r => r
    | none => MockTmdbClient.default_video_response movie_id

/-- HTTP reply produced by a handler: a status code, and either the JSON
model (success) or the fixed error body text. -/
structure HttpReply (α : Type) where
  status : Nat
  body : α ⊕ String
deriving DecidableEq, Repr

/-- Embedding of the get_trending_movies handler (src/handlers.rs
lines 10-19): page defaults to 1 when absent, the client is invoked with
it, success is 200 with the model, errors go through
map_error_to_response. Alongside the reply, the list of pages the client
contract was invoked with is returned, to reason about invocations. -/
def Handlers.get_trending_movies
    (client : Int → Except TmdbError TmdbResponse)
    (page_param : Option Int) : HttpReply TmdbResponse × List Int :=
  let page := page_param.getD 1
  match client page with
  | .ok r => (⟨200, .inl r⟩, [page])
  | .error e =>
    (⟨(map_error_to_response e).1, .inr (map_error_to_response e).2⟩, [page])

/-- Embedding of the search_content handler body (src/handlers.rs
lines 22-32), run once Query deserialization of SearchQuery succeeded. -/
def Handlers.search_content
    (client : String → Int → Except TmdbError TmdbResponse)
    (params : SearchQuery) : HttpReply TmdbResponse × List (String × Int) :=
  let page := params.page.getD 1
  match client params.query page with
  | .ok r => (⟨200, .inl r⟩, [(params.query, page)])
  | .error e =>
    (⟨(map_error_to_response e).1, .inr (map_error_to_response e).2⟩,
      [(params.query, page)])

/-- Deserialization of SearchQuery by the axum Query extractor from the
request query parameters: the query field is required, so its absence fails
deserialization; a present value, the empty string included, deserializes.
The page field is optional (src/models.rs lines 45-49). -/
def SearchQuery.from_params (query_param : Option String)
    (page_param : Option Int) : Option SearchQuery :=
  match query_param with
  | none => none
  | some q => some ⟨q, page_param⟩

/-- Search route as dispatched by axum: a failed Query extraction is
rejected with status 400 before the handler body runs, so the client is
never invoked; otherwise the handler body runs. -/
def Handlers.search_route
    (client : String → Int → Except TmdbError TmdbResponse)
    (query_param : Option String) (page_param : Option Int) :
    HttpReply TmdbResponse × List (String × Int) :=
  match SearchQuery.from_params query_param page_param with
  | none => (⟨400, .inr "Failed to deserialize query string"⟩, [])
  | some params => Handlers.search_content client params

/-- Embedding of the get_movie_videos handler (src/handlers.rs
lines 34-42): the path-embedded id is passed to the client and the client
result is returned unchanged on success. -/
def Handlers.get_movie_videos
    (client : Int → Except TmdbError VideoResponse) (id : Int) :
    HttpReply VideoResponse × List Int :=
  match client id with
  | .ok r => (⟨200, .inl r⟩, [id])
  | .error e =>
    (⟨(map_error_to_response e).1, .inr (map_error_to_response e).2⟩, [id])

/-- Property of an Except value: it is an ok or an error, never both and
never neither. -/
def exceptExactlyOne {ε α : Type} (x : Except ε α) : Prop :=
  ((∃ v, x = .ok v) ∨ (∃ e, x = .error e)) ∧
  ¬((∃ v, x = .ok v) ∧ (∃ e, x = .error e))

/-- Every Except value satisfies exceptExactlyOne. -/
theorem exceptExactlyOne_holds {ε α : Type} (x : Except ε α) :
    exceptExactlyOne x := by
  constructor
  · cases x with
    | ok v => exact .inl ⟨v, rfl⟩
    | error e => exact .inr ⟨e, rfl⟩
  · rintro ⟨⟨v, hv⟩, ⟨e, he⟩⟩
    rw [hv] at he
    cases he

/-- C7 (counterexample): a search request whose query parameter is present
but empty deserializes, reaches the handler, and invokes the client
contract — the response is 200 and the invocation list is nonempty, contrary to
the claim that an empty query short-circuits with a bad request. -/
theorem search_empty_query_reaches_client :
    Handlers.search_route (fun _ _ => .ok ⟨1, [], 0⟩) (some "") none =
      (⟨200, .inl ⟨1, [], 0⟩⟩, [("", 1)]) ∧
    (Handlers.search_route (fun _ _ => .ok ⟨1, [], 0⟩) (some "") none).2
      ≠ ([] : List (String × Int)) :=
  ⟨rfl, by decide⟩

/-- C7 (amended): only a request whose query parameter is absent is
rejected with status 400 before the client contract is invoked; a present
query string, the empty string included, is forwarded to search_content
exactly once with the page defaulted to 1 when absent. -/
theorem search_absent_query_short_circuits :
    ∀ (client : String → Int → Except TmdbError TmdbResponse)
      (page_param : Option Int),
    Handlers.search_route client none page_param =
      (⟨400, .inr "Failed to deserialize query string"⟩, []) ∧
    ∀ (q : String) (pp : Option Int),
      (Handlers.search_route client (some q) pp).2 = [(q, pp.getD 1)] := by
  intro client page_param
  refine ⟨rfl, ?_⟩
  intro q pp
  cases h : client q (pp.getD 1) <;>
    simp [Handlers.search_route, SearchQuery.from_params,
      Handlers.search_content, h]

/-- C8 (counterexample): a mock configured with an Ok response whose page
field is 5 for requests of page 1 returns, at the valid page number 1, an
Ok ResultPage whose page field differs from the requested page. -/
theorem mock_configured_page_mismatch :
    MockTmdbClient.get_trending
      ⟨[(1, .ok ⟨5, [], 1⟩)], [], [], none, none, none⟩ 1
      = .ok ⟨5, [], 1⟩ ∧
    (TmdbResponse.mk 5 [] 1).page ≠ (1 : Int) :=
  ⟨rfl, by decide⟩

/-- C8 (amended): for every positive page, each implementation of
get_trending and search_content returns an Ok ResultPage or an Err
ErrorKind — exactly one of the two; the unconfigured mock moreover returns
an Ok page whose page field equals the requested page, while a configured
mock response (see the counterexample) and the live client's decoded
upstream body may carry a different page. -/
theorem page_result_exclusive (page : Int) (m : MockTmdbClient)
    (q k : String) (tr : String → SendResult)
    (d : String → Except String TmdbResponse) (_hpage : 0 < page) :
    exceptExactlyOne (m.get_trending page) ∧
    exceptExactlyOne (m.search_content q page) ∧
    exceptExactlyOne (RealTmdbClient.get_trending k page tr d) ∧
    exceptExactlyOne (RealTmdbClient.search_content k q page tr d) ∧
    (∃ r, MockTmdbClient.new.get_trending page = .ok r ∧ r.page = page) ∧
    (∃ r, MockTmdbClient.new.search_content q page = .ok r ∧
      r.page = page) := by
  refine ⟨exceptExactlyOne_holds _, exceptExactlyOne_holds _,
    exceptExactlyOne_holds _, exceptExactlyOne_holds _,
    ⟨_, rfl, rfl⟩, ⟨_, rfl, rfl⟩⟩

/-- Witness for C8 (amended) at page 1 with the unconfigured mock, a failing
transport and a failing decoder. -/
theorem page_result_exclusive_witness :
    (0 : Int) < 1 ∧
    (exceptExactlyOne (MockTmdbClient.new.get_trending 1) ∧
    exceptExactlyOne (MockTmdbClient.new.search_content "q" 1) ∧
    exceptExactlyOne (RealTmdbClient.get_trending "k" 1
      (fun _ => .failure "connection refused") (fun _ => .error "bad")) ∧
    exceptExactlyOne (RealTmdbClient.search_content "k" "q" 1
      (fun _ => .failure "connection refused") (fun _ => .error "bad")) ∧
    (∃ r, MockTmdbClient.new.get_trending 1 = .ok r ∧ r.page = 1) ∧
    (∃ r, MockTmdbClient.new.search_content "q" 1 = .ok r ∧ r.page = 1)) :=
  ⟨by decide,
    page_result_exclusive 1 MockTmdbClient.new "q" "k"
      (fun _ => .failure "connection refused") (fun _ => .error "bad")
      (by decide)⟩

/-- C9: the trending and search handlers do not validate the page
parameter: for every integer page value, zero and negatives included, the
client contract is invoked with exactly that value, and only an absent
parameter is replaced by 1. -/
theorem handlers_pass_page_unvalidated :
    ∀ (client : Int → Except TmdbError TmdbResponse)
      (sclient : String → Int → Except TmdbError TmdbResponse)
      (p : Int) (q : String),
    (Handlers.get_trending_movies client (some p)).2 = [p] ∧
    (Handlers.get_trending_movies client none).2 = [1] ∧
    (Handlers.search_content sclient ⟨q, some p⟩).2 = [(q, p)] ∧
    (Handlers.search_content sclient ⟨q, none⟩).2 = [(q, 1)] := by
  intro client sclient p q
  refine ⟨?_, ?_, ?_, ?_⟩
  · cases h : client p <;> simp [Handlers.get_trending_movies, h]
  · cases h : client 1 <;> simp [Handlers.get_trending_movies, h]
  · cases h : sclient q p <;> simp [Handlers.search_content, h]
  · cases h : sclient q 1 <;> simp [Handlers.search_content, h]

/-- C10: on client success the movie-videos handler replies 200 with the
client's VideoPage unchanged, the id field included; the id is never
checked against the path-embedded movie id, so when the client's returned
id differs from the path id, the response body's id differs from the id in
the request path. -/
theorem videos_passthrough (client : Int → Except TmdbError VideoResponse)
    (path_id : Int) (r : VideoResponse) (h : client path_id = .ok r) :
    Handlers.get_movie_videos client path_id = (⟨200, .inl r⟩, [path_id]) ∧
    (r.id ≠ path_id → ∀ v : VideoResponse,
      (Handlers.get_movie_videos client path_id).1.body = .inl v →
        v.id ≠ path_id) := by
  have hmain : Handlers.get_movie_videos client path_id =
      (⟨200, .inl r⟩, [path_id]) := by
    simp [Handlers.get_movie_videos, h]
  refine ⟨hmain, ?_⟩
  intro hne v hv
  rw [hmain] at hv
  have hrv : r = v := Sum.inl.inj hv
  exact hrv ▸ hne

/-- Witness for C10 at a concrete client returning id 7 for path id 5. -/
theorem videos_passthrough_witness :
    (fun _ : Int => (.ok ⟨7, []⟩ : Except TmdbError VideoResponse)) 5 =
      .ok ⟨7, []⟩ ∧
    (Handlers.get_movie_videos (fun _ => .ok ⟨7, []⟩) 5 =
      (⟨200, .inl ⟨7, []⟩⟩, [5]) ∧
    ((⟨7, []⟩ : VideoResponse).id ≠ 5 → ∀ v : VideoResponse,
      (Handlers.get_movie_videos (fun _ => .ok ⟨7, []⟩) 5).1.body = .inl v →
        v.id ≠ 5)) :=
  ⟨rfl, videos_passthrough (fun _ => .ok ⟨7, []⟩) 5 ⟨7, []⟩ rfl⟩
